import Mathlib

/-!
Formal model of the weather-notifier rule-evaluation and cooldown engine
(`weather_notifier.py` with the default configuration from `config.py`).

Forecast periods are modelled as records of the JSON fields the rules read;
an absent or null field is `none` (for string fields read with a default,
the default is the field value).  Temperatures are integers, rainfall and
snow accumulation are rationals.  Each `check_*` function mirrors the
corresponding Python function; ambient state that the Python reads
(cooldown record, current date) is passed explicitly.
-/

namespace WeatherNotifier

/-! ### Configuration defaults (config.py) -/

def RAINFALL_THRESHOLD_INCHES : Rat := 1/4

def TEMP_DROP_THRESHOLD_F : Int := 20

def FREEZE_THRESHOLD_F : Int := 32

def HEAT_WAVE_THRESHOLD_F : Int := 95

def HEAT_WAVE_CONSECUTIVE_DAYS : Nat := 3

def SNOW_CHANCE_THRESHOLD_PERCENT : Int := 30

def SHOULDER_FREEZE_THRESHOLD_F : Int := 33

def FIRST_FREEZE_SEASON_START : Nat := 10

def FIRST_FREEZE_SEASON_END : Nat := 12

def SHOULDER_FREEZE_MONTHS : List Nat := [3, 11]

/-! ### Data model -/

/-- One forecast period as consumed by the rules.  `maxTempF`, `minTempF`,
`snowIN`, `pop` and `isDay` are `none` when the key is absent or null;
`weather` and `weatherPrimary` model `period.get(key, '')`, so an absent
key is the empty string. -/
structure ForecastPeriod where
  dateTimeISO : String := ""
  maxTempF : Option Int := none
  minTempF : Option Int := none
  isDay : Option Bool := none
  weather : String := ""
  weatherPrimary : String := ""
  snowIN : Option Rat := none
  pop : Option Int := none
deriving DecidableEq, Repr

/-- Python `period.get('dateTimeISO', '')[:10]`. -/
def dateOf (p : ForecastPeriod) : String := p.dateTimeISO.take 10

/-! ### check_rainfall -/

/-- The states of the observation gateway that `check_rainfall` distinguishes:
the request raises, the response has no periods, or the first period carries a
`totalIN` value (`none` models both a missing key and an explicit null). -/
inductive RainfallInput
  | gatewayError
  | noPeriods
  | total (t : Option Rat)
deriving DecidableEq, Repr

/-- Model of `check_rainfall`: returns `(should_notify, rainfall)`.
Mirrors `rainfall = precip.get('totalIN', 0) or 0` followed by
`rainfall >= RAINFALL_THRESHOLD_INCHES`; a gateway exception or empty
period list resolves to `(False, 0.0)`. -/
def check_rainfall : RainfallInput → Bool × Rat
  | .gatewayError => (false, 0)
  | .noPeriods => (false, 0)
  | .total t =>
    let rainfall := t.getD 0
    (decide (RAINFALL_THRESHOLD_INCHES ≤ rainfall), rainfall)

/-! ### check_temp_drop -/

/-- One entry of the `temps` list built by `check_temp_drop`. -/
structure TempEntry where
  date : String
  high : Int
deriving DecidableEq, Repr

/-- The `temps` extraction loop: keep `{'date': ..., 'high': ...}` for every
period whose `maxTempF` is present. -/
def extractTemps (periods : List ForecastPeriod) : List TempEntry :=
  periods.filterMap fun p => p.maxTempF.map fun t => ⟨dateOf p, t⟩

/-- Index pairs visited by the double loop
`for i in range(n): for j in range(i+1, min(i+4, n))`, in scan order. -/
def tempDropPairs (n : Nat) : List (Nat × Nat) :=
  (List.range n).flatMap fun i =>
    (List.range' (i+1) (min (i+4) n - (i+1))).map fun j => (i, j)

/-- The drop computed for one index pair: `temps[i]['high'] - temps[j]['high']`. -/
def pairDrop (temps : List TempEntry) (pr : Nat × Nat) : Int :=
  (temps.getD pr.1 ⟨"", 0⟩).high - (temps.getD pr.2 ⟨"", 0⟩).high

/-- All drops of the `i < j ≤ i+3` window pairs, in scan order. -/
def pairDrops (temps : List TempEntry) : List Int :=
  (tempDropPairs temps.length).map (pairDrop temps)

/-- The inner accumulation of `check_temp_drop`: running maximum drop
(starting at 0), together with the pair that last strictly increased it
(the first-found maximizing pair).  The Python keeps the description string;
it is a function of that pair, so the pair is tracked instead. -/
def tempDropFold (temps : List TempEntry) : Int × Option (Nat × Nat) :=
  (tempDropPairs temps.length).foldl
    (fun acc pr => if acc.1 < pairDrop temps pr then (pairDrop temps pr, some pr) else acc)
    (0, none)

/-- The description `"{date_i} ({high_i}°F) → {date_j} ({high_j}°F)"`. -/
def dropDesc (temps : List TempEntry) (pr : Nat × Nat) : String :=
  let a := temps.getD pr.1 ⟨"", 0⟩
  let b := temps.getD pr.2 ⟨"", 0⟩
  a.date ++ " (" ++ toString a.high ++ "°F) → " ++ b.date ++ " (" ++ toString b.high ++ "°F)"

/-- Result triple of `check_temp_drop`. -/
structure TempDropResult where
  shouldNotify : Bool
  maxDrop : Int
  desc : String
deriving DecidableEq, Repr

/-- Model of `check_temp_drop`.  `onCooldown` models
`is_temp_drop_on_cooldown()`; the early exits return `(False, 0, "")`.
After extracting the valid highs it fires iff the accumulated maximum drop
reaches `TEMP_DROP_THRESHOLD_F`. -/
def check_temp_drop (onCooldown : Bool) (periods : List ForecastPeriod) : TempDropResult :=
  if onCooldown then ⟨false, 0, ""⟩
  else if periods.length < 2 then ⟨false, 0, ""⟩
  else
    let temps := extractTemps periods
    let r := tempDropFold temps
    let desc := match r.2 with
      | some pr => dropDesc temps pr
      | none => ""
    ⟨decide (TEMP_DROP_THRESHOLD_F ≤ r.1), r.1, desc⟩

/-! ### check_first_freeze -/

/-- Result of a freeze-style check, together with whether the forecast
gateway was contacted (`aeris_request` reached). -/
structure FreezeResult where
  shouldNotify : Bool
  lowTemp : Int
  date : String
  gatewayCalled : Bool
deriving DecidableEq, Repr

/-- The scan loop of `check_first_freeze`: return the first period whose
`minTempF` is present and at most `FREEZE_THRESHOLD_F`; periods with a
missing low, or a low above the threshold, are skipped. -/
def firstFreezeScan : List ForecastPeriod → Option (Int × String)
  | [] => none
  | p :: ps =>
    match p.minTempF with
    | some t => if t ≤ FREEZE_THRESHOLD_F then some (t, dateOf p) else firstFreezeScan ps
    | none => firstFreezeScan ps

/-- A period that would stop the first-freeze scan. -/
def freezeHit (p : ForecastPeriod) : Prop :=
  ∃ t, p.minTempF = some t ∧ t ≤ FREEZE_THRESHOLD_F

instance (p : ForecastPeriod) : Decidable (freezeHit p) := by
  unfold freezeHit
  rcases p.minTempF with _ | t
  · exact isFalse (by rintro ⟨t, h, -⟩; cases h)
  · exact decidable_of_iff (t ≤ FREEZE_THRESHOLD_F)
      ⟨fun h => ⟨t, rfl, h⟩, by rintro ⟨u, hu, h⟩; cases hu; exact h⟩

/-- Model of `check_first_freeze`.  `month` and `year` are the current
date components; `alertYear` is `cooldown.get('first_freeze_alert_year')`.
Outside the season window, or when the stored year equals the current
year, it returns without contacting the gateway. -/
def check_first_freeze (month : Nat) (year : Int) (alertYear : Option Int)
    (periods : List ForecastPeriod) : FreezeResult :=
  if ¬ (FIRST_FREEZE_SEASON_START ≤ month ∧ month ≤ FIRST_FREEZE_SEASON_END) then
    ⟨false, 0, "", false⟩
  else if alertYear = some year then ⟨false, 0, "", false⟩
  else
    match firstFreezeScan periods with
    | some (t, d) => ⟨true, t, d, true⟩
    | none => ⟨false, 0, "", true⟩

/-! ### check_heat_wave -/

/-- One entry of the `current_streak` / `hot_days` lists. -/
structure HotDay where
  date : String
  high : Int
deriving DecidableEq, Repr

/-- The streak entry built from a period. -/
def mkHotDay (p : ForecastPeriod) : HotDay :=
  ⟨dateOf p, p.maxTempF.getD 0⟩

/-- The condition `max_temp is not None and max_temp >= HEAT_WAVE_THRESHOLD_F`. -/
def isHotPeriod (p : ForecastPeriod) : Bool :=
  match p.maxTempF with
  | some t => HEAT_WAVE_THRESHOLD_F ≤ t
  | none => false

/-- The scan loop of `check_heat_wave` plus the final-streak check:
accumulate consecutive hot days; a day that is not hot ends the streak
(returning it when it already qualifies, otherwise resetting); when the
data ends, the trailing streak is returned iff it qualifies.  The result
is the Python `hot_days` list (empty = no heat wave). -/
def heatLoop : List ForecastPeriod → List HotDay → List HotDay
  | [], streak => if HEAT_WAVE_CONSECUTIVE_DAYS ≤ streak.length then streak else []
  | p :: ps, streak =>
    if isHotPeriod p then heatLoop ps (streak ++ [mkHotDay p])
    else if HEAT_WAVE_CONSECUTIVE_DAYS ≤ streak.length then streak
    else heatLoop ps []

/-- Model of `check_heat_wave`: `(should_notify, hot_days, count)`. -/
def check_heat_wave (onCooldown : Bool) (periods : List ForecastPeriod) :
    Bool × List HotDay × Nat :=
  if onCooldown then (false, [], 0)
  else
    let hd := heatLoop periods []
    if hd.isEmpty then (false, [], 0) else (true, hd, hd.length)

/-- Specification-level predicate: the forecast contains a run of at least
`n` consecutive hot periods (a streak of length ≥ n). -/
def HasHotRun (n : Nat) (ps : List ForecastPeriod) : Prop :=
  ∃ l₁ run l₂, ps = l₁ ++ run ++ l₂ ∧ n ≤ run.length ∧ ∀ p ∈ run, isHotPeriod p = true

/-- The remainder of the forecast after the first streak-breaking period. -/
def afterBreak (ps : List ForecastPeriod) : List ForecastPeriod :=
  (ps.dropWhile isHotPeriod).drop 1

/-! ### check_snow_chance -/

/-- Whether the first character list starts the second one. -/
def leadsList : List Char → List Char → Bool
  | [], _ => true
  | _ :: _, [] => false
  | a :: as, b :: bs => a = b && leadsList as bs

/-- Whether the first character list occurs contiguously in the second
(Python substring membership `needle in hay`). -/
def occursIn (needle : List Char) : List Char → Bool
  | [] => needle.isEmpty
  | c :: rest => leadsList needle (c :: rest) || occursIn needle rest

/-- Python `'snow' in s.lower()`: case-insensitive substring test. -/
def containsSnow (s : String) : Bool :=
  occursIn ("snow".data) (s.data.map Char.toLower)

/-- The per-period snow indicator
`'snow' in weather or 'snow' in weather_primary or snow_in > 0`,
with `snow_in = period.get('snowIN', 0) or 0`. -/
def hasSnow (p : ForecastPeriod) : Bool :=
  containsSnow p.weather || containsSnow p.weatherPrimary || decide (0 < p.snowIN.getD 0)

/-- The scan loop of `check_snow_chance`: return `(pop, date)` of the first
period that indicates snow and whose `pop` (missing treated as 0) reaches
`SNOW_CHANCE_THRESHOLD_PERCENT`; all other periods are skipped. -/
def snowScan : List ForecastPeriod → Option (Int × String)
  | [] => none
  | p :: ps =>
    if hasSnow p ∧ SNOW_CHANCE_THRESHOLD_PERCENT ≤ p.pop.getD 0 then
      some (p.pop.getD 0, dateOf p)
    else snowScan ps

/-- A period that would stop the snow scan. -/
def snowHit (p : ForecastPeriod) : Prop :=
  hasSnow p = true ∧ SNOW_CHANCE_THRESHOLD_PERCENT ≤ p.pop.getD 0

instance (p : ForecastPeriod) : Decidable (snowHit p) := by
  unfold snowHit; infer_instance

/-- Model of `check_snow_chance`: `(should_notify, probability, date)`. -/
def check_snow_chance (onCooldown : Bool) (periods : List ForecastPeriod) :
    Bool × Int × String :=
  if onCooldown then (false, 0, "")
  else
    match snowScan periods with
    | some (prob, d) => (true, prob, d)
    | none => (false, 0, "")

/-! ### check_shoulder_freeze -/

/-- The condition `not is_day and min_temp is not None` under which the
shoulder-freeze loop body runs (`isDay` defaults to `True` when absent). -/
def nightWithLow (p : ForecastPeriod) : Prop :=
  p.isDay.getD true = false ∧ p.minTempF ≠ none

instance (p : ForecastPeriod) : Decidable (nightWithLow p) := by
  unfold nightWithLow; infer_instance

/-- The description string of a firing shoulder-freeze check. -/
def shoulderDesc (t : Int) (d : String) : String :=
  "Tonight's low: " ++ toString t ++ "F on " ++ d

/-- The scan loop of `check_shoulder_freeze`: find the first night period
with a present low; fire iff that low is strictly below the threshold,
returning immediately either way.  Day periods and periods with a missing
low are skipped. -/
def shoulderScan : List ForecastPeriod → Bool × Int × String
  | [] => (false, 0, "")
  | p :: ps =>
    match p.minTempF with
    | some t =>
      if p.isDay.getD true = false then
        if t < SHOULDER_FREEZE_THRESHOLD_F then (true, t, shoulderDesc t (dateOf p))
        else (false, 0, "")
      else shoulderScan ps
    | none => shoulderScan ps

/-- Model of `check_shoulder_freeze`.  `month` is the current month and
`alertedToday` models the same-calendar-day guard
(`last_shoulder_freeze_alert` stored with today's date). -/
def check_shoulder_freeze (month : Nat) (alertedToday : Bool)
    (periods : List ForecastPeriod) : Bool × Int × String :=
  if ¬ month ∈ SHOULDER_FREEZE_MONTHS then (false, 0, "")
  else if alertedToday then (false, 0, "")
  else shoulderScan periods

/-! ### get_cooldown_data -/

/-- A parsed JSON document, as returned by `json.load`. -/
inductive JsonValue
  | obj (fields : List (String × JsonValue))
  | arr (items : List JsonValue)
  | str (s : String)
  | num (q : Rat)
  | jbool (b : Bool)
  | null

/-- Whether a JSON value is a mapping (a well-formed cooldown document shape). -/
def JsonValue.isObj : JsonValue → Bool
  | .obj _ => true
  | _ => false

/-- The states of the cooldown backing file that `get_cooldown_data`
distinguishes: the file does not exist, reading raises `IOError`,
`json.load` raises `JSONDecodeError`, or parsing succeeds with a value. -/
inductive CooldownFileState
  | missing
  | ioError
  | malformed
  | parsed (v : JsonValue)

/-- Model of `get_cooldown_data`: a missing file and either caught
exception yield `{}`; a successful parse is returned unchanged. -/
def get_cooldown_data : CooldownFileState → JsonValue
  | .missing => .obj []
  | .ioError => .obj []
  | .malformed => .obj []
  | .parsed v => v

/-! ### Orchestrator: run_checks / run_shoulder_freeze_check

The orchestrator is modelled as the ordered list of side effects it performs
against the notification gateway and the cooldown store.  The evaluation of
each `check_*` function (which only reads gateways and the cooldown record)
is abstracted by its returned outcome; the gateway's reply to each
`send_pushover_notification` call is abstracted by one boolean per rule. -/

/-- An externally visible side effect of a run: a notification-gateway call,
a cooldown-store write (`set_*_cooldown`, which performs
`save_cooldown_data`), or the `[TEST MODE]` log line that replaces the
notification in a dry run. -/
inductive Effect
  | notify (title : String) (priority : Int)
  | setCooldown (key : String)
  | logTest (title : String)
deriving DecidableEq, Repr

/-- Whether an effect is a notification-gateway call. -/
def Effect.isNotify : Effect → Bool
  | .notify _ _ => true
  | _ => false

/-- Whether an effect is a cooldown-store write. -/
def Effect.isCooldownWrite : Effect → Bool
  | .setCooldown _ => true
  | _ => false

/-- The per-rule enable flags `ALERT_*`. -/
structure AlertConfig where
  rainfall : Bool
  tempDrop : Bool
  firstFreeze : Bool
  heatWave : Bool
  snowChance : Bool
deriving DecidableEq, Repr

/-- The outcomes of the five checks as observed by `run_checks`. -/
structure CheckOutcomes where
  rain : Bool × Rat
  tempDrop : TempDropResult
  firstFreeze : FreezeResult
  heatWave : Bool × List HotDay × Nat
  snow : Bool × Int × String

/-- The notification gateway's reply to the (at most one) send performed
for each rule. -/
structure GatewayReplies where
  rain : Bool
  tempDrop : Bool
  firstFreeze : Bool
  heatWave : Bool
  snow : Bool
deriving DecidableEq, Repr

/-- One rule block of `run_checks`: if the rule fired, either log (test
mode) or notify, and when the gateway reports success perform the rule's
cooldown write (`cooldownKey = none` models the rainfall block, which sets
no cooldown). -/
def ruleBlock (testMode : Bool) (fired : Bool) (title : String) (priority : Int)
    (sendOk : Bool) (cooldownKey : Option String) : List Effect :=
  if fired then
    if testMode then [.logTest title]
    else
      .notify title priority ::
        (match cooldownKey with
         | some key => if sendOk then [.setCooldown key] else []
         | none => [])
  else []

/-- Model of `run_checks`: the effects of the five rule blocks, in program
order.  A disabled rule contributes nothing. -/
def run_checks (testMode : Bool) (cfg : AlertConfig) (res : CheckOutcomes)
    (gw : GatewayReplies) : List Effect :=
  (if cfg.rainfall then
    ruleBlock testMode res.rain.1 "🌧️ Significant Rainfall Yesterday" 0 gw.rain none
   else []) ++
  (if cfg.tempDrop then
    ruleBlock testMode res.tempDrop.shouldNotify "Major Temperature Drop Coming" 1
      gw.tempDrop (some "last_temp_drop_alert")
   else []) ++
  (if cfg.firstFreeze then
    ruleBlock testMode res.firstFreeze.shouldNotify "First Freeze of Season Coming!" 1
      gw.firstFreeze (some "first_freeze_alert_year")
   else []) ++
  (if cfg.heatWave then
    ruleBlock testMode res.heatWave.1 "Heat Wave Alert!" 1
      gw.heatWave (some "last_heat_wave_alert")
   else []) ++
  (if cfg.snowChance then
    ruleBlock testMode res.snow.1 "Snow in the Forecast!" 0
      gw.snow (some "last_snow_alert")
   else [])

/-- Model of `run_shoulder_freeze_check`: the effects of the single
shoulder-freeze block (`enabled` is `ALERT_SHOULDER_FREEZE`). -/
def run_shoulder_freeze_check (testMode : Bool) (enabled : Bool)
    (res : Bool × Int × String) (sendOk : Bool) : List Effect :=
  if enabled then
    ruleBlock testMode res.1 "Freeze Warning Tonight!" 1 sendOk
      (some "last_shoulder_freeze_alert")
  else []

/-! ### Concrete inputs used by the claims -/

/-- Forecast with highs `[70, 68, 65, 62, 48, 50, 55]`
(the temp-drop window-boundary example). -/
def tempExPeriods : List ForecastPeriod :=
  [{ dateTimeISO := "2026-02-20T00:00:00", maxTempF := some 70 },
   { dateTimeISO := "2026-02-21T00:00:00", maxTempF := some 68 },
   { dateTimeISO := "2026-02-22T00:00:00", maxTempF := some 65 },
   { dateTimeISO := "2026-02-23T00:00:00", maxTempF := some 62 },
   { dateTimeISO := "2026-02-24T00:00:00", maxTempF := some 48 },
   { dateTimeISO := "2026-02-25T00:00:00", maxTempF := some 50 },
   { dateTimeISO := "2026-02-26T00:00:00", maxTempF := some 55 }]

/-- Forecast with highs `[90, 96, 98, 97, 88]` (heat-wave firing example). -/
def heatExA : List ForecastPeriod :=
  [{ dateTimeISO := "2026-07-01T00:00:00", maxTempF := some 90 },
   { dateTimeISO := "2026-07-02T00:00:00", maxTempF := some 96 },
   { dateTimeISO := "2026-07-03T00:00:00", maxTempF := some 98 },
   { dateTimeISO := "2026-07-04T00:00:00", maxTempF := some 97 },
   { dateTimeISO := "2026-07-05T00:00:00", maxTempF := some 88 }]

/-- Forecast with highs `[96, 97, 85, 96, 97]` (heat-wave non-firing example). -/
def heatExB : List ForecastPeriod :=
  [{ dateTimeISO := "2026-07-01T00:00:00", maxTempF := some 96 },
   { dateTimeISO := "2026-07-02T00:00:00", maxTempF := some 97 },
   { dateTimeISO := "2026-07-03T00:00:00", maxTempF := some 85 },
   { dateTimeISO := "2026-07-04T00:00:00", maxTempF := some 96 },
   { dateTimeISO := "2026-07-05T00:00:00", maxTempF := some 97 }]

/-- Forecast with highs `[80, 96, 98, 97]`: the qualifying streak is still
in progress when the data ends. -/
def heatExC : List ForecastPeriod :=
  [{ dateTimeISO := "2026-07-01T00:00:00", maxTempF := some 80 },
   { dateTimeISO := "2026-07-02T00:00:00", maxTempF := some 96 },
   { dateTimeISO := "2026-07-03T00:00:00", maxTempF := some 98 },
   { dateTimeISO := "2026-07-04T00:00:00", maxTempF := some 97 }]

/-- A hot forecast day (high 100) with the given date. -/
def hotDay (d : String) : ForecastPeriod := { dateTimeISO := d, maxTempF := some 100 }

/-- A forecast day with a missing high temperature. -/
def noHighDay : ForecastPeriod := { dateTimeISO := "2026-07-10T00:00:00" }

/-- A clear day followed by a snowy day with `snowIN = 2.0`, `pop = 60`. -/
def snowExFires : List ForecastPeriod :=
  [{ dateTimeISO := "2026-01-20T00:00:00", weather := "Clear",
     weatherPrimary := "Sunny", snowIN := some 0, pop := some 10 },
   { dateTimeISO := "2026-01-21T00:00:00", weather := "Snow likely",
     weatherPrimary := "Snow", snowIN := some 2, pop := some 60 }]

/-- A snowy day with only `pop = 15`. -/
def snowExLowPop : List ForecastPeriod :=
  [{ dateTimeISO := "2026-01-21T00:00:00", weather := "Chance of Snow",
     weatherPrimary := "Snow", snowIN := some (1/2), pop := some 15 }]

/-- A March day period followed by a night period with low 28. -/
def shoulderExCold : List ForecastPeriod :=
  [{ dateTimeISO := "2026-03-15T00:00:00", isDay := some true, minTempF := some 45 },
   { dateTimeISO := "2026-03-15T00:00:00", isDay := some false, minTempF := some 28 }]

/-- A March day period followed by a night period with low 40, and a later
colder night period that must not be examined. -/
def shoulderExWarm : List ForecastPeriod :=
  [{ dateTimeISO := "2026-03-15T00:00:00", isDay := some true, minTempF := some 55 },
   { dateTimeISO := "2026-03-15T00:00:00", isDay := some false, minTempF := some 40 },
   { dateTimeISO := "2026-03-16T00:00:00", isDay := some false, minTempF := some 20 }]

/-- An in-season first-freeze forecast whose first qualifying day (low 30)
precedes a colder day (low 25): the first match, not the minimum, is kept. -/
def freezeExPeriods : List ForecastPeriod :=
  [{ dateTimeISO := "2026-11-01T00:00:00", minTempF := some 40 },
   { dateTimeISO := "2026-11-02T00:00:00", minTempF := none },
   { dateTimeISO := "2026-11-03T00:00:00", minTempF := some 30 },
   { dateTimeISO := "2026-11-04T00:00:00", minTempF := some 25 }]

/-- A March daytime period with low 45. -/
def marchDay45 : ForecastPeriod :=
  { dateTimeISO := "2026-03-15T00:00:00", isDay := some true, minTempF := some 45 }

/-- A March night period with low 28. -/
def marchNight28 : ForecastPeriod :=
  { dateTimeISO := "2026-03-15T00:00:00", isDay := some false, minTempF := some 28 }

/-- A sunny day with a high precipitation probability but no snow indication. -/
def sunnyDay80 : ForecastPeriod :=
  { dateTimeISO := "2026-01-20T00:00:00", weather := "Sunny", weatherPrimary := "Clear",
    snowIN := some 0, pop := some 80 }

/-- All five rules enabled. -/
def cfgAll : AlertConfig := ⟨true, true, true, true, true⟩

/-- A run in which only the first-freeze rule fires. -/
def resFirstFreezeOnly : CheckOutcomes :=
  ⟨(false, 0), ⟨false, 0, ""⟩, ⟨true, 30, "2026-11-03", true⟩, (false, [], 0), (false, 0, "")⟩

/-- A run in which every rule fires. -/
def resAllFire : CheckOutcomes :=
  ⟨(true, 1/2), ⟨true, 25, "drop"⟩, ⟨true, 30, "2026-11-03", true⟩,
   (true, [⟨"2026-07-02", 98⟩], 3), (true, 60, "2026-01-21")⟩

/-- The gateway reports failure for every send. -/
def gwAllFail : GatewayReplies := ⟨false, false, false, false, false⟩

/-- The gateway reports success for every send. -/
def gwAllOk : GatewayReplies := ⟨true, true, true, true, true⟩

/-! ### Helper lemmas -/

theorem mem_if_list {α : Type} [DecidableEq α] (e : α) (c : Bool) (l : List α) :
    (e ∈ if c then l else []) ↔ c = true ∧ e ∈ l := by
  cases c <;> simp

theorem ruleBlock_test_countP_notify (fired : Bool) (title : String) (priority : Int)
    (sendOk : Bool) (key : Option String) :
    (ruleBlock true fired title priority sendOk key).countP Effect.isNotify = 0 := by
  cases fired <;> simp [ruleBlock, List.countP_cons, Effect.isNotify]

theorem ruleBlock_test_countP_write (fired : Bool) (title : String) (priority : Int)
    (sendOk : Bool) (key : Option String) :
    (ruleBlock true fired title priority sendOk key).countP Effect.isCooldownWrite = 0 := by
  cases fired <;> simp [ruleBlock, List.countP_cons, Effect.isCooldownWrite]

theorem countP_if_list {α : Type} (p : α → Bool) (c : Bool) (l : List α) :
    (if c then l else []).countP p = if c then l.countP p else 0 := by
  cases c <;> simp

theorem setCooldown_mem_ruleBlock (k : String) (fired : Bool) (title : String)
    (priority : Int) (sendOk : Bool) (key : Option String) :
    (Effect.setCooldown k ∈ ruleBlock false fired title priority sendOk key) ↔
      fired = true ∧ sendOk = true ∧ key = some k := by
  cases fired <;> cases sendOk <;> cases key <;> simp [ruleBlock, eq_comm]

/-! ### Claim theorems -/

/-- C9: `check_rainfall` fires iff the rainfall total is at least
`RAINFALL_THRESHOLD_INCHES = 1/4` (inclusive), a missing/null total behaves
exactly like a total of 0 (and does not fire), and a gateway error or
absent period data resolves to `(does not fire, 0.0)`. -/
theorem rainfall_claim :
    (∀ r : Rat, ((check_rainfall (.total (some r))).1 = true ↔ 1/4 ≤ r) ∧
      (check_rainfall (.total (some r))).2 = r)
    ∧ check_rainfall (.total none) = check_rainfall (.total (some 0))
    ∧ check_rainfall (.total none) = (false, 0)
    ∧ check_rainfall .gatewayError = (false, 0)
    ∧ check_rainfall .noPeriods = (false, 0) := by
  refine ⟨fun r => ⟨?_, rfl⟩, by norm_num [check_rainfall, RAINFALL_THRESHOLD_INCHES],
    by norm_num [check_rainfall, RAINFALL_THRESHOLD_INCHES], rfl, rfl⟩
  simp [check_rainfall, RAINFALL_THRESHOLD_INCHES]

/-- C4 counterexample: a backing file whose content parses as the JSON
array `[]` — well-formed JSON but not a cooldown mapping — is returned
as-is by `get_cooldown_data`, not replaced by the empty record. -/
theorem get_cooldown_data_counterexample :
    (get_cooldown_data (.parsed (.arr []))).isObj = false ∧
    get_cooldown_data (.parsed (.arr [])) ≠ JsonValue.obj [] := by
  refine ⟨rfl, fun h => ?_⟩
  exact JsonValue.noConfusion h

/-- C4 (amended): `get_cooldown_data` never raises; a missing file, an
`IOError` while reading, or content that fails JSON parsing all yield the
empty record, but content that parses successfully is returned unchanged
even when it is not a mapping. -/
theorem get_cooldown_data_claim :
    get_cooldown_data .missing = JsonValue.obj [] ∧
    get_cooldown_data .ioError = JsonValue.obj [] ∧
    get_cooldown_data .malformed = JsonValue.obj [] ∧
    ∀ v, get_cooldown_data (.parsed v) = v :=
  ⟨rfl, rfl, rfl, fun _ => rfl⟩

/-- C3: with `test_mode=True`, `run_checks` and `run_shoulder_freeze_check`
perform zero notification-gateway calls and zero cooldown-store writes,
whatever the rule outcomes, enable flags and gateway replies are. -/
theorem dry_run_claim :
    (∀ (cfg : AlertConfig) (res : CheckOutcomes) (gw : GatewayReplies),
      (run_checks true cfg res gw).countP Effect.isNotify = 0 ∧
      (run_checks true cfg res gw).countP Effect.isCooldownWrite = 0)
    ∧ ∀ (enabled : Bool) (res : Bool × Int × String) (sendOk : Bool),
      (run_shoulder_freeze_check true enabled res sendOk).countP Effect.isNotify = 0 ∧
      (run_shoulder_freeze_check true enabled res sendOk).countP Effect.isCooldownWrite = 0 := by
  constructor
  · intro cfg res gw
    constructor <;>
      simp [run_checks, List.countP_append, countP_if_list,
        ruleBlock_test_countP_notify, ruleBlock_test_countP_write]
  · intro enabled res sendOk
    constructor <;>
      cases enabled <;>
        simp [run_shoulder_freeze_check,
          ruleBlock_test_countP_notify, ruleBlock_test_countP_write]

/-- C2 counterexample: in a normal-mode run where the first-freeze check
fires and the gateway reports failure, the notification is attempted but
`first_freeze_alert_year` is NOT advanced; likewise a firing shoulder-freeze
check with a failed delivery does not advance `last_shoulder_freeze_alert`.
This refutes the claim that these two markers advance regardless of the
delivery result. -/
theorem cooldown_advance_counterexample :
    Effect.notify "First Freeze of Season Coming!" 1
        ∈ run_checks false cfgAll resFirstFreezeOnly gwAllFail
    ∧ Effect.setCooldown "first_freeze_alert_year"
        ∉ run_checks false cfgAll resFirstFreezeOnly gwAllFail
    ∧ Effect.notify "Freeze Warning Tonight!" 1
        ∈ run_shoulder_freeze_check false true (true, 28, "low") false
    ∧ Effect.setCooldown "last_shoulder_freeze_alert"
        ∉ run_shoulder_freeze_check false true (true, 28, "low") false := by
  refine ⟨?_, ?_, ?_, ?_⟩ <;>
    simp [run_checks, run_shoulder_freeze_check, ruleBlock, cfgAll,
      resFirstFreezeOnly, gwAllFail]

/-- C2 (amended): in a normal-mode run, every rule with a cooldown key —
temp-drop, heat-wave, snow-chance, first-freeze and shoulder-freeze alike —
advances its cooldown marker if and only if the rule is enabled, fired, and
the notification gateway reports success; delivery failure leaves every
marker unchanged. -/
theorem cooldown_advance_claim :
    (∀ (cfg : AlertConfig) (res : CheckOutcomes) (gw : GatewayReplies),
      (Effect.setCooldown "last_temp_drop_alert" ∈ run_checks false cfg res gw ↔
        cfg.tempDrop = true ∧ res.tempDrop.shouldNotify = true ∧ gw.tempDrop = true)
      ∧ (Effect.setCooldown "first_freeze_alert_year" ∈ run_checks false cfg res gw ↔
        cfg.firstFreeze = true ∧ res.firstFreeze.shouldNotify = true ∧ gw.firstFreeze = true)
      ∧ (Effect.setCooldown "last_heat_wave_alert" ∈ run_checks false cfg res gw ↔
        cfg.heatWave = true ∧ res.heatWave.1 = true ∧ gw.heatWave = true)
      ∧ (Effect.setCooldown "last_snow_alert" ∈ run_checks false cfg res gw ↔
        cfg.snowChance = true ∧ res.snow.1 = true ∧ gw.snow = true))
    ∧ ∀ (enabled : Bool) (res : Bool × Int × String) (sendOk : Bool),
      Effect.setCooldown "last_shoulder_freeze_alert"
          ∈ run_shoulder_freeze_check false enabled res sendOk ↔
        enabled = true ∧ res.1 = true ∧ sendOk = true := by
  constructor
  · intro cfg res gw
    refine ⟨?_, ?_, ?_, ?_⟩ <;>
      simp [run_checks, List.mem_append, mem_if_list, setCooldown_mem_ruleBlock]
  · intro enabled res sendOk
    simp [run_shoulder_freeze_check, mem_if_list, setCooldown_mem_ruleBlock]

theorem firstFreezeScan_append (l₁ rest : List ForecastPeriod)
    (h : ∀ q ∈ l₁, ¬ freezeHit q) :
    firstFreezeScan (l₁ ++ rest) = firstFreezeScan rest := by
  induction l₁ with
  | nil => rfl
  | cons a l ih =>
    have ha : ¬ freezeHit a := h a (by simp)
    rcases hm : a.minTempF with _ | v
    · simpa [firstFreezeScan, hm] using ih fun q hq => h q (by simp [hq])
    · have hv : ¬ v ≤ FREEZE_THRESHOLD_F := fun hv => ha ⟨v, hm, hv⟩
      simpa [firstFreezeScan, hm, hv] using ih fun q hq => h q (by simp [hq])

theorem firstFreezeScan_eq_none_iff (ps : List ForecastPeriod) :
    firstFreezeScan ps = none ↔ ∀ p ∈ ps, ¬ freezeHit p := by
  induction ps with
  | nil => simp [firstFreezeScan]
  | cons p t ih =>
    rcases hm : p.minTempF with _ | v
    · have hp : ¬ freezeHit p := by simp [freezeHit, hm]
      simp only [firstFreezeScan, hm, List.forall_mem_cons, ih]
      tauto
    · by_cases hv : v ≤ FREEZE_THRESHOLD_F
      · have hp : freezeHit p := ⟨v, hm, hv⟩
        simp [firstFreezeScan, hm, hv, hp]
      · have hp : ¬ freezeHit p := by
          rintro ⟨w, hw, hle⟩
          rw [hm] at hw
          cases hw
          exact hv hle
        simp only [firstFreezeScan, hm, if_neg hv, List.forall_mem_cons, ih]
        tauto

theorem firstFreezeScan_eq_some_iff (ps : List ForecastPeriod) (t : Int) (d : String) :
    firstFreezeScan ps = some (t, d) ↔
      ∃ l₁ p l₂, ps = l₁ ++ p :: l₂ ∧ (∀ q ∈ l₁, ¬ freezeHit q) ∧
        p.minTempF = some t ∧ t ≤ FREEZE_THRESHOLD_F ∧ d = dateOf p := by
  constructor
  · intro h
    induction ps with
    | nil => simp [firstFreezeScan] at h
    | cons p rest ih =>
      rcases hm : p.minTempF with _ | v
      · simp only [firstFreezeScan, hm] at h
        obtain ⟨l₁, q, l₂, heq, hnone, h1, h2, h3⟩ := ih h
        exact ⟨p :: l₁, q, l₂, by simp [heq], by
          intro x hx
          rcases List.mem_cons.mp hx with rfl | hx
          · simp [freezeHit, hm]
          · exact hnone x hx, h1, h2, h3⟩
      · by_cases hv : v ≤ FREEZE_THRESHOLD_F
        · simp only [firstFreezeScan, hm, if_pos hv, Option.some.injEq, Prod.mk.injEq] at h
          exact ⟨[], p, rest, rfl, by simp, by rw [hm, h.1], h.1 ▸ hv, h.2.symm⟩
        · simp only [firstFreezeScan, hm, if_neg hv] at h
          obtain ⟨l₁, q, l₂, heq, hnone, h1, h2, h3⟩ := ih h
          refine ⟨p :: l₁, q, l₂, by simp [heq], ?_, h1, h2, h3⟩
          intro x hx
          rcases List.mem_cons.mp hx with rfl | hx
          · rintro ⟨w, hw, hle⟩
            rw [hm] at hw
            cases hw
            exact hv hle
          · exact hnone x hx
  · rintro ⟨l₁, p, l₂, h1, hnone, hmin, hle, h2⟩
    rw [h2, h1, firstFreezeScan_append l₁ (p :: l₂) hnone]
    simp [firstFreezeScan, hmin, hle]

theorem snowScan_append (l₁ rest : List ForecastPeriod)
    (h : ∀ q ∈ l₁, ¬ snowHit q) :
    snowScan (l₁ ++ rest) = snowScan rest := by
  induction l₁ with
  | nil => rfl
  | cons a l ih =>
    have ha : ¬ (hasSnow a = true ∧ SNOW_CHANCE_THRESHOLD_PERCENT ≤ a.pop.getD 0) :=
      h a (by simp)
    simpa [snowScan, ha] using ih fun q hq => h q (by simp [hq])

theorem snowScan_eq_none_iff (ps : List ForecastPeriod) :
    snowScan ps = none ↔ ∀ p ∈ ps, ¬ snowHit p := by
  induction ps with
  | nil => simp [snowScan]
  | cons p t ih =>
    by_cases hp : hasSnow p = true ∧ SNOW_CHANCE_THRESHOLD_PERCENT ≤ p.pop.getD 0
    · have : snowHit p := hp
      simp [snowScan, hp, snowHit, this]
    · simp only [snowScan, if_neg hp, List.forall_mem_cons, ih, snowHit]
      tauto

theorem snowScan_eq_some_iff (ps : List ForecastPeriod) (pr : Int) (d : String) :
    snowScan ps = some (pr, d) ↔
      ∃ l₁ p l₂, ps = l₁ ++ p :: l₂ ∧ (∀ q ∈ l₁, ¬ snowHit q) ∧
        snowHit p ∧ pr = p.pop.getD 0 ∧ d = dateOf p := by
  constructor
  · intro h
    induction ps with
    | nil => simp [snowScan] at h
    | cons p rest ih =>
      by_cases hp : hasSnow p = true ∧ SNOW_CHANCE_THRESHOLD_PERCENT ≤ p.pop.getD 0
      · simp only [snowScan, if_pos hp, Option.some.injEq, Prod.mk.injEq] at h
        exact ⟨[], p, rest, rfl, by simp, hp, h.1.symm, h.2.symm⟩
      · simp only [snowScan, if_neg hp] at h
        obtain ⟨l₁, q, l₂, heq, hnone, h1, h2, h3⟩ := ih h
        refine ⟨p :: l₁, q, l₂, by simp [heq], ?_, h1, h2, h3⟩
        intro x hx
        rcases List.mem_cons.mp hx with rfl | hx
        · exact hp
        · exact hnone x hx
  · rintro ⟨l₁, p, l₂, h1, hnone, hhit, h2, h3⟩
    rw [h3, h2, h1, snowScan_append l₁ (p :: l₂) hnone]
    simp [snowScan, hhit.1, hhit.2]

theorem shoulderScan_append (l₁ rest : List ForecastPeriod)
    (h : ∀ q ∈ l₁, ¬ nightWithLow q) :
    shoulderScan (l₁ ++ rest) = shoulderScan rest := by
  induction l₁ with
  | nil => rfl
  | cons a l ih =>
    have ha : ¬ nightWithLow a := h a (by simp)
    rcases hm : a.minTempF with _ | v
    · simpa [shoulderScan, hm] using ih fun q hq => h q (by simp [hq])
    · have hd : ¬ a.isDay.getD true = false := by
        intro hday
        exact ha ⟨hday, by simp [hm]⟩
      simpa [shoulderScan, hm, hd] using ih fun q hq => h q (by simp [hq])

theorem shoulderScan_first_night (p : ForecastPeriod) (t : Int)
    (hday : p.isDay.getD true = false) (hm : p.minTempF = some t)
    (l₂ : List ForecastPeriod) :
    shoulderScan (p :: l₂) =
      if t < SHOULDER_FREEZE_THRESHOLD_F then (true, t, shoulderDesc t (dateOf p))
      else (false, 0, "") := by
  simp [shoulderScan, hm, hday]

theorem shoulderScan_no_night (ps : List ForecastPeriod)
    (h : ∀ q ∈ ps, ¬ nightWithLow q) :
    shoulderScan ps = (false, 0, "") := by
  have := shoulderScan_append ps [] h
  simpa using this

/-- C5: `check_first_freeze` returns "does not fire" with no gateway call
whenever the month is outside the inclusive season window `[10, 12]` or the
stored alert year equals the current year; otherwise it contacts the
gateway, fires iff some day has a present low at most
`FREEZE_THRESHOLD_F = 32` (inclusive), and reports the first such day in
scan order (not the minimum).  On `freezeExPeriods` it reports the low-30
day of 2026-11-03 even though a low-25 day follows. -/
theorem first_freeze_claim :
    (∀ (month : Nat) (year : Int) (alertYear : Option Int) (periods : List ForecastPeriod),
      month < FIRST_FREEZE_SEASON_START ∨ FIRST_FREEZE_SEASON_END < month ∨
          alertYear = some year →
        check_first_freeze month year alertYear periods = ⟨false, 0, "", false⟩)
    ∧ (∀ (month : Nat) (year : Int) (alertYear : Option Int) (periods : List ForecastPeriod),
        FIRST_FREEZE_SEASON_START ≤ month → month ≤ FIRST_FREEZE_SEASON_END →
        alertYear ≠ some year →
          ((check_first_freeze month year alertYear periods).gatewayCalled = true
          ∧ ((check_first_freeze month year alertYear periods).shouldNotify = true ↔
              ∃ p ∈ periods, freezeHit p)
          ∧ ∀ (t : Int) (d : String),
              check_first_freeze month year alertYear periods = ⟨true, t, d, true⟩ →
              ∃ l₁ p l₂, periods = l₁ ++ p :: l₂ ∧ (∀ q ∈ l₁, ¬ freezeHit q) ∧
                p.minTempF = some t ∧ t ≤ FREEZE_THRESHOLD_F ∧ d = dateOf p))
    ∧ check_first_freeze 11 2026 none freezeExPeriods = ⟨true, 30, "2026-11-03", true⟩ := by
  refine ⟨?_, ?_, by decide⟩
  · intro month year alertYear periods h
    by_cases hs : FIRST_FREEZE_SEASON_START ≤ month ∧ month ≤ FIRST_FREEZE_SEASON_END
    · have hy : alertYear = some year := by
        rcases h with h | h | h
        · exact absurd hs.1 (by omega)
        · exact absurd hs.2 (by omega)
        · exact h
      simp [check_first_freeze, hs, hy]
    · simp [check_first_freeze, hs]
  · intro month year alertYear periods h1 h2 hny
    have hs : FIRST_FREEZE_SEASON_START ≤ month ∧ month ≤ FIRST_FREEZE_SEASON_END := ⟨h1, h2⟩
    rcases hscan : firstFreezeScan periods with _ | ⟨t0, d0⟩
    · have hall := (firstFreezeScan_eq_none_iff periods).mp hscan
      refine ⟨?_, ?_, ?_⟩
      · simp [check_first_freeze, hs, hny, hscan]
      · simp only [check_first_freeze, hs, and_self, not_true_eq_false, if_false,
          if_neg hny, hscan]
        constructor
        · intro hfalse
          cases hfalse
        · rintro ⟨p, hp, hhit⟩
          exact absurd hhit (hall p hp)
      · intro t d heq
        simp only [check_first_freeze, hs, and_self, not_true_eq_false, if_false,
          if_neg hny, hscan] at heq
        cases heq
    · refine ⟨?_, ?_, ?_⟩
      · simp [check_first_freeze, hs, hny, hscan]
      · simp only [check_first_freeze, hs, and_self, not_true_eq_false, if_false,
          if_neg hny, hscan, true_iff]
        obtain ⟨l₁, p, l₂, heq, _, hmin, hle, _⟩ :=
          (firstFreezeScan_eq_some_iff periods t0 d0).mp hscan
        exact ⟨p, by simp [heq], ⟨t0, hmin, hle⟩⟩
      · intro t d heq
        simp only [check_first_freeze, hs, and_self, not_true_eq_false, if_false,
          if_neg hny, hscan, FreezeResult.mk.injEq] at heq
        obtain ⟨-, ht, hd, -⟩ := heq
        rw [← ht, ← hd]
        exact (firstFreezeScan_eq_some_iff periods t0 d0).mp hscan

/-- C5 witness: instantiating the claim — out of season (month 2) the rule
returns without a gateway call, and the in-season firing branch applies to
the concrete forecast. -/
theorem first_freeze_claim_witness :
    (2 < FIRST_FREEZE_SEASON_START ∨ FIRST_FREEZE_SEASON_END < 2 ∨
        (none : Option Int) = some 2026)
    ∧ check_first_freeze 2 2026 none freezeExPeriods = ⟨false, 0, "", false⟩ :=
  ⟨Or.inl (by decide), first_freeze_claim.1 2 2026 none freezeExPeriods (Or.inl (by decide))⟩

/-- C7: in a shoulder month with the same-day guard clear,
`check_shoulder_freeze` examines only the first night period with a present
low: it fires iff that low is strictly below
`SHOULDER_FREEZE_THRESHOLD_F = 33` and the result never depends on later
periods (the right-hand side below does not mention `l₂`; in
`shoulderExWarm` a colder later night is ignored); with no night period
carrying a low, it does not fire. -/
theorem shoulder_freeze_claim :
    (∀ (month : Nat) (l₁ : List ForecastPeriod) (p : ForecastPeriod)
        (l₂ : List ForecastPeriod) (t : Int),
      month ∈ SHOULDER_FREEZE_MONTHS →
      (∀ q ∈ l₁, ¬ nightWithLow q) →
      p.isDay.getD true = false → p.minTempF = some t →
      check_shoulder_freeze month false (l₁ ++ p :: l₂) =
        if t < SHOULDER_FREEZE_THRESHOLD_F then (true, t, shoulderDesc t (dateOf p))
        else (false, 0, ""))
    ∧ (∀ (month : Nat) (periods : List ForecastPeriod),
        (∀ q ∈ periods, ¬ nightWithLow q) →
        check_shoulder_freeze month false periods = (false, 0, ""))
    ∧ check_shoulder_freeze 3 false shoulderExCold = (true, 28, shoulderDesc 28 "2026-03-15")
    ∧ check_shoulder_freeze 3 false shoulderExWarm = (false, 0, "") := by
  refine ⟨?_, ?_, by decide, by decide⟩
  · intro month l₁ p l₂ t hmonth hnl hday hmin
    rw [check_shoulder_freeze, if_neg (by simpa using hmonth), if_neg (by simp),
      shoulderScan_append l₁ (p :: l₂) hnl, shoulderScan_first_night p t hday hmin]
  · intro month periods hall
    by_cases hmonth : month ∈ SHOULDER_FREEZE_MONTHS
    · rw [check_shoulder_freeze, if_neg (by simpa using hmonth), if_neg (by simp),
        shoulderScan_no_night periods hall]
    · rw [check_shoulder_freeze, if_pos (by simpa using hmonth)]

/-- C7 witness: the firing branch of the claim applied to the concrete
March forecast whose first night period has low 28. -/
theorem shoulder_freeze_claim_witness :
    ((3 : Nat) ∈ SHOULDER_FREEZE_MONTHS ∧ marchNight28.isDay.getD true = false)
    ∧ check_shoulder_freeze 3 false ([marchDay45] ++ marchNight28 :: []) =
      (if (28 : Int) < SHOULDER_FREEZE_THRESHOLD_F then
        (true, 28, shoulderDesc 28 (dateOf marchNight28))
      else (false, 0, "")) :=
  ⟨⟨by decide, by decide⟩,
    shoulder_freeze_claim.1 3 _ _ [] 28 (by decide) (by decide) (by decide) rfl⟩

/-- C8: `check_snow_chance`, when not on cooldown, fires iff some day both
indicates snow (case-insensitive "snow" substring in `weather` or
`weatherPrimary`, or `snowIN > 0`) and has `pop ≥ 30` (missing pop read as
0); the reported probability and date come from the first such day;
snow-indicating days below the probability threshold do not stop the scan
(in the combined example, the pop-15 snowy day is passed over and the
pop-60 day fires); and with no qualifying day it does not fire. -/
theorem snow_chance_claim :
    (∀ periods : List ForecastPeriod,
      ((check_snow_chance false periods).1 = true ↔ ∃ p ∈ periods, snowHit p))
    ∧ (∀ (periods : List ForecastPeriod) (pr : Int) (d : String),
        check_snow_chance false periods = (true, pr, d) →
        ∃ l₁ p l₂, periods = l₁ ++ p :: l₂ ∧ (∀ q ∈ l₁, ¬ snowHit q) ∧ snowHit p ∧
          pr = p.pop.getD 0 ∧ d = dateOf p)
    ∧ (∀ periods : List ForecastPeriod,
        (∀ p ∈ periods, ¬ snowHit p) → check_snow_chance false periods = (false, 0, ""))
    ∧ check_snow_chance false snowExFires = (true, 60, "2026-01-21")
    ∧ check_snow_chance false (snowExLowPop ++ snowExFires) = (true, 60, "2026-01-21")
    ∧ check_snow_chance false snowExLowPop = (false, 0, "") := by
  refine ⟨?_, ?_, ?_, by decide, by decide, by decide⟩
  · intro periods
    rcases hscan : snowScan periods with _ | ⟨pr, d⟩
    · have hall := (snowScan_eq_none_iff periods).mp hscan
      simp only [check_snow_chance, if_neg Bool.false_ne_true, hscan]
      constructor
      · intro hfalse
        cases hfalse
      · rintro ⟨p, hp, hhit⟩
        exact absurd hhit (hall p hp)
    · simp only [check_snow_chance, if_neg Bool.false_ne_true, hscan, true_iff]
      obtain ⟨l₁, p, l₂, heq, _, hhit, -, -⟩ :=
        (snowScan_eq_some_iff periods pr d).mp hscan
      exact ⟨p, by simp [heq], hhit⟩
  · intro periods pr d heq
    rcases hscan : snowScan periods with _ | ⟨pr0, d0⟩ <;>
      simp only [check_snow_chance, if_neg Bool.false_ne_true, hscan,
        Prod.mk.injEq] at heq
    · exact absurd heq.1 (by decide)
    · obtain ⟨-, h1, h2⟩ := heq
      rw [← h1, ← h2]
      exact (snowScan_eq_some_iff periods pr0 d0).mp hscan
  · intro periods hall
    simp only [check_snow_chance, if_neg Bool.false_ne_true,
      (snowScan_eq_none_iff periods).mpr hall]

/-- C8 witness: the no-qualifying-day branch of the claim applied to a
one-day forecast that does not indicate snow. -/
theorem snow_chance_claim_witness :
    (∀ p ∈ [sunnyDay80], ¬ snowHit p)
    ∧ check_snow_chance false [sunnyDay80] = (false, 0, "") :=
  ⟨by decide, snow_chance_claim.2.2.1 _ (by decide)⟩

theorem foldl_max_of_le (a : Int) (l : List Int) (h : ∀ x ∈ l, x ≤ a) :
    l.foldl max a = a := by
  induction l generalizing a with
  | nil => rfl
  | cons x t ih =>
    have hx : max a x = a := max_eq_left (h x (by simp))
    simpa [hx] using ih a fun y hy => h y (by simp [hy])

theorem le_foldl_max_iff (thr a : Int) (l : List Int) :
    thr ≤ l.foldl max a ↔ thr ≤ a ∨ ∃ d ∈ l, thr ≤ d := by
  induction l generalizing a with
  | nil => simp
  | cons x t ih =>
    simp only [List.foldl_cons, ih, le_max_iff, List.mem_cons]
    constructor
    · rintro ((h | h) | ⟨d, hd, h⟩)
      · exact Or.inl h
      · exact Or.inr ⟨x, Or.inl rfl, h⟩
      · exact Or.inr ⟨d, Or.inr hd, h⟩
    · rintro (h | ⟨d, rfl | hd, h⟩)
      · exact Or.inl (Or.inl h)
      · exact Or.inl (Or.inr h)
      · exact Or.inr ⟨d, hd, h⟩

theorem argmax_fold_fst {α : Type} (f : α → Int) (l : List α) (m : Int) (b : Option α) :
    (l.foldl (fun acc p => if acc.1 < f p then (f p, some p) else acc) (m, b)).1 =
      (l.map f).foldl max m := by
  induction l generalizing m b with
  | nil => rfl
  | cons p t ih =>
    by_cases h : m < f p
    · simpa [h, max_eq_right (le_of_lt h)] using ih (f p) (some p)
    · simpa [h, max_eq_left (le_of_not_lt h)] using ih m b

theorem argmax_fold_snd {α : Type} (f : α → Int) (l : List α) (m : Int) (b : Option α) :
    ((l.foldl (fun acc p => if acc.1 < f p then (f p, some p) else acc) (m, b)).2 = b
        ∧ ∀ p ∈ l, f p ≤ m)
    ∨ (∃ l₁ q l₂, l = l₁ ++ q :: l₂
        ∧ (l.foldl (fun acc p => if acc.1 < f p then (f p, some p) else acc) (m, b)).2 = some q
        ∧ f q = (l.foldl (fun acc p => if acc.1 < f p then (f p, some p) else acc) (m, b)).1
        ∧ m < f q ∧ (∀ p ∈ l₁, f p < f q) ∧ ∀ p ∈ l₂, f p ≤ f q) := by
  induction l generalizing m b with
  | nil => exact Or.inl ⟨rfl, by simp⟩
  | cons p t ih =>
    by_cases h : m < f p
    · have hstep : (p :: t).foldl
          (fun acc q => if acc.1 < f q then (f q, some q) else acc) (m, b) =
          t.foldl (fun acc q => if acc.1 < f q then (f q, some q) else acc) (f p, some p) := by
        simp [h]
      rcases ih (f p) (some p) with ⟨hb, hall⟩ | ⟨l₁, q, l₂, heq, hsnd, hfq, hm, hlt, hle⟩
      · refine Or.inr ⟨[], p, t, by simp, by rw [hstep]; exact hb, ?_, h, by simp, hall⟩
        rw [hstep, argmax_fold_fst, foldl_max_of_le (f p) (t.map f)]
        intro x hx
        obtain ⟨y, hy, rfl⟩ := List.mem_map.mp hx
        exact hall y hy
      · refine Or.inr ⟨p :: l₁, q, l₂, by simp [heq], by rw [hstep]; exact hsnd,
          by rw [hstep]; exact hfq, lt_trans h hm, ?_, hle⟩
        intro x hx
        rcases List.mem_cons.mp hx with rfl | hx
        · exact hm
        · exact hlt x hx
    · have hstep : (p :: t).foldl
          (fun acc q => if acc.1 < f q then (f q, some q) else acc) (m, b) =
          t.foldl (fun acc q => if acc.1 < f q then (f q, some q) else acc) (m, b) := by
        simp [h]
      rcases ih m b with ⟨hb, hall⟩ | ⟨l₁, q, l₂, heq, hsnd, hfq, hm, hlt, hle⟩
      · refine Or.inl ⟨by rw [hstep]; exact hb, ?_⟩
        intro x hx
        rcases List.mem_cons.mp hx with rfl | hx
        · exact le_of_not_lt h
        · exact hall x hx
      · refine Or.inr ⟨p :: l₁, q, l₂, by simp [heq], by rw [hstep]; exact hsnd,
          by rw [hstep]; exact hfq, hm, ?_, hle⟩
        intro x hx
        rcases List.mem_cons.mp hx with rfl | hx
        · exact lt_of_le_of_lt (le_of_not_lt h) hm
        · exact hlt x hx

theorem tempDropPairs_small (n : Nat) (h : n < 2) : tempDropPairs n = [] := by
  interval_cases n <;> decide

theorem tempDropFold_fst (temps : List TempEntry) :
    (tempDropFold temps).1 = (pairDrops temps).foldl max 0 :=
  argmax_fold_fst (pairDrop temps) (tempDropPairs temps.length) 0 none

/-- C1: `check_temp_drop`, off cooldown with at least two valid highs,
fires iff some window-pair drop reaches `TEMP_DROP_THRESHOLD_F = 20`
(equivalently, iff the maximum drop does: the returned `maxDrop` bounds
every pair drop from above); the reported pair is the first maximizing
pair in scan order (strictly larger than every earlier drop, at least as
large as every later one); on highs `[70,68,65,62,48,50,55]` it fires via
the index pair `(1, 4)` (68°F → 48°F) with drop 20; with fewer than two
valid highs it never fires. -/
theorem temp_drop_claim :
    (∀ periods : List ForecastPeriod, 2 ≤ (extractTemps periods).length →
      ((check_temp_drop false periods).shouldNotify = true ↔
        ∃ d ∈ pairDrops (extractTemps periods), TEMP_DROP_THRESHOLD_F ≤ d))
    ∧ (∀ periods : List ForecastPeriod, ∀ d ∈ pairDrops (extractTemps periods),
        d ≤ (tempDropFold (extractTemps periods)).1)
    ∧ (∀ (periods : List ForecastPeriod) (pr : Nat × Nat),
        (tempDropFold (extractTemps periods)).2 = some pr →
        ∃ l₁ l₂, tempDropPairs (extractTemps periods).length = l₁ ++ pr :: l₂
          ∧ pairDrop (extractTemps periods) pr = (tempDropFold (extractTemps periods)).1
          ∧ (∀ q ∈ l₁, pairDrop (extractTemps periods) q < pairDrop (extractTemps periods) pr)
          ∧ ∀ q ∈ l₂, pairDrop (extractTemps periods) q ≤ pairDrop (extractTemps periods) pr)
    ∧ (∀ periods : List ForecastPeriod, (extractTemps periods).length < 2 →
        (check_temp_drop false periods).shouldNotify = false)
    ∧ check_temp_drop false tempExPeriods =
        ⟨true, 20, "2026-02-21 (68°F) → 2026-02-24 (48°F)"⟩
    ∧ (tempDropFold (extractTemps tempExPeriods)).2 = some (1, 4) := by
  refine ⟨?_, ?_, ?_, ?_, by decide, by decide⟩
  · intro periods h2
    have hlen : ¬ periods.length < 2 := by
      have := List.length_filterMap_le
        (fun p : ForecastPeriod => p.maxTempF.map fun t => (⟨dateOf p, t⟩ : TempEntry))
        periods
      unfold extractTemps at h2
      omega
    simp only [check_temp_drop, if_neg Bool.false_ne_true, if_neg hlen,
      decide_eq_true_eq, tempDropFold_fst, le_foldl_max_iff]
    have : ¬ TEMP_DROP_THRESHOLD_F ≤ 0 := by decide
    tauto
  · intro periods d hd
    rw [tempDropFold_fst]
    rcases le_foldl_max_iff d 0 (pairDrops (extractTemps periods)) with ⟨-, h⟩
    exact h (Or.inr ⟨d, hd, le_refl d⟩)
  · intro periods pr hpr
    rcases argmax_fold_snd (pairDrop (extractTemps periods))
        (tempDropPairs (extractTemps periods).length) 0 none with
      ⟨hb, -⟩ | ⟨l₁, q, l₂, heq, hsnd, hfq, -, hlt, hle⟩
    · rw [tempDropFold] at hpr
      rw [hpr] at hb
      cases hb
    · rw [tempDropFold] at hpr
      rw [hpr] at hsnd
      cases hsnd
      exact ⟨l₁, l₂, heq, hfq, hlt, hle⟩
  · intro periods hlt
    by_cases hlen : periods.length < 2
    · simp [check_temp_drop, hlen]
    · simp only [check_temp_drop, if_neg Bool.false_ne_true, if_neg hlen,
        decide_eq_true_eq]
      rw [tempDropFold, tempDropPairs_small (extractTemps periods).length hlt]
      simp [TEMP_DROP_THRESHOLD_F]

/-- C1 witness: the fires-iff part of the claim applied to the concrete
seven-day forecast, together with the witnessing pair drop of 20. -/
theorem temp_drop_claim_witness :
    2 ≤ (extractTemps tempExPeriods).length ∧
    ((check_temp_drop false tempExPeriods).shouldNotify = true ↔
      ∃ d ∈ pairDrops (extractTemps tempExPeriods), TEMP_DROP_THRESHOLD_F ≤ d) ∧
    (check_temp_drop false tempExPeriods).shouldNotify = true :=
  ⟨by decide, temp_drop_claim.1 tempExPeriods (by decide),
    (temp_drop_claim.1 tempExPeriods (by decide)).mpr ⟨20, by decide, by decide⟩⟩

theorem takeWhile_append_all {α : Type} (f : α → Bool) (run z : List α)
    (h : ∀ p ∈ run, f p = true) :
    (run ++ z).takeWhile f = run ++ z.takeWhile f := by
  induction run with
  | nil => rfl
  | cons a t ih =>
    have ha : f a = true := h a (by simp)
    simp [List.takeWhile_cons, ha, ih fun p hp => h p (by simp [hp])]

theorem takeWhile_append_break {α : Type} (f : α → Bool) (x y : List α) (brk : α)
    (h : f brk = false) :
    (x ++ brk :: y).takeWhile f = x.takeWhile f := by
  induction x with
  | nil => simp [List.takeWhile_cons, h]
  | cons a t ih =>
    cases hfa : f a <;> simp [List.takeWhile_cons, hfa, ih]

theorem hasHotRun_length {n : Nat} {ps : List ForecastPeriod} (h : HasHotRun n ps) :
    n ≤ ps.length := by
  obtain ⟨l₁, run, l₂, heq, hlen, -⟩ := h
  rw [heq]
  simp only [List.length_append]
  omega

theorem hasHotRun_all (n : Nat) (x : List ForecastPeriod)
    (h : ∀ p ∈ x, isHotPeriod p = true) : HasHotRun n x ↔ n ≤ x.length :=
  ⟨hasHotRun_length, fun hl => ⟨[], x, [], by simp, hl, h⟩⟩

theorem hasHotRun_nil (n : Nat) (hn : 0 < n) : ¬ HasHotRun n [] := by
  intro h
  have := hasHotRun_length h
  simp at this
  omega

theorem hasHotRun_cons_not (n : Nat) (a : ForecastPeriod) (t : List ForecastPeriod)
    (hn : 0 < n) (ha : isHotPeriod a = false) :
    HasHotRun n (a :: t) ↔ HasHotRun n t := by
  constructor
  · rintro ⟨l₁, run, l₂, heq, hlen, hhot⟩
    cases l₁ with
    | nil =>
      cases run with
      | nil => simp at hlen; omega
      | cons r rs =>
        simp only [List.nil_append, List.cons_append, List.cons.injEq] at heq
        have : isHotPeriod a = true := heq.1 ▸ hhot r (by simp)
        rw [ha] at this
        cases this
    | cons b l₁' =>
      simp only [List.cons_append, List.cons.injEq] at heq
      exact ⟨l₁', run, l₂, heq.2, hlen, hhot⟩
  · rintro ⟨l₁, run, l₂, heq, hlen, hhot⟩
    exact ⟨a :: l₁, run, l₂, by simp [heq], hlen, hhot⟩

theorem hasHotRun_cons_hot (n : Nat) (a : ForecastPeriod) (t : List ForecastPeriod)
    (_ha : isHotPeriod a = true) :
    HasHotRun n (a :: t) ↔
      n ≤ ((a :: t).takeWhile isHotPeriod).length ∨ HasHotRun n t := by
  constructor
  · rintro ⟨l₁, run, l₂, heq, hlen, hhot⟩
    cases l₁ with
    | nil =>
      left
      simp only [List.nil_append] at heq
      rw [heq, takeWhile_append_all isHotPeriod run l₂ hhot]
      simp only [List.length_append]
      omega
    | cons b l₁' =>
      right
      simp only [List.cons_append, List.cons.injEq] at heq
      exact ⟨l₁', run, l₂, heq.2, hlen, hhot⟩
  · rintro (h | ⟨l₁, run, l₂, heq, hlen, hhot⟩)
    · refine ⟨[], (a :: t).takeWhile isHotPeriod, (a :: t).dropWhile isHotPeriod,
        by simp [List.takeWhile_append_dropWhile], h,
        fun p hp => List.mem_takeWhile_imp hp⟩
    · exact ⟨a :: l₁, run, l₂, by simp [heq], hlen, hhot⟩

theorem hasHotRun_break (n : Nat) (x y : List ForecastPeriod) (brk : ForecastPeriod)
    (hn : 0 < n) (hb : isHotPeriod brk = false) :
    HasHotRun n (x ++ brk :: y) ↔ HasHotRun n x ∨ HasHotRun n y := by
  induction x with
  | nil =>
    simp only [List.nil_append]
    rw [hasHotRun_cons_not n brk y hn hb]
    have := hasHotRun_nil n hn
    tauto
  | cons a t ih =>
    cases hfa : isHotPeriod a
    · rw [List.cons_append, hasHotRun_cons_not n a (t ++ brk :: y) hn hfa,
        hasHotRun_cons_not n a t hn hfa]
      exact ih
    · rw [List.cons_append, hasHotRun_cons_hot n a (t ++ brk :: y) hfa,
        hasHotRun_cons_hot n a t hfa, ← List.cons_append,
        takeWhile_append_break isHotPeriod (a :: t) y brk hb]
      rw [ih]
      tauto

theorem dropWhile_cons_head {α : Type} (f : α → Bool) (l : List α) (x : α) (xs : List α)
    (h : l.dropWhile f = x :: xs) : f x = false := by
  have h2 : l.dropWhile f ≠ [] := by simp [h]
  have h3 := List.head_dropWhile_not f l h2
  have h4 : (l.dropWhile f).head h2 = x := by
    simp [List.head_eq_iff_head?_eq_some, h]
  rwa [h4] at h3

theorem hasHotRun_iff_tw (n : Nat) (ps : List ForecastPeriod) (hn : 0 < n) :
    HasHotRun n ps ↔
      n ≤ (ps.takeWhile isHotPeriod).length ∨ HasHotRun n (afterBreak ps) := by
  have htw : ∀ p ∈ ps.takeWhile isHotPeriod, isHotPeriod p = true :=
    fun p hp => List.mem_takeWhile_imp hp
  rcases hdw : ps.dropWhile isHotPeriod with _ | ⟨brk, rest⟩
  · have hps : ps.takeWhile isHotPeriod = ps := by
      have := List.takeWhile_append_dropWhile isHotPeriod ps
      rw [hdw] at this
      simpa using this
    have hab : afterBreak ps = [] := by simp [afterBreak, hdw]
    rw [hab, hps]
    have := hasHotRun_nil n hn
    have hall : ∀ p ∈ ps, isHotPeriod p = true := hps ▸ htw
    rw [hasHotRun_all n ps hall]
    tauto
  · have hbrk : isHotPeriod brk = false := dropWhile_cons_head isHotPeriod ps brk rest hdw
    have hps : ps = ps.takeWhile isHotPeriod ++ brk :: rest := by
      have := List.takeWhile_append_dropWhile isHotPeriod ps
      rw [hdw] at this
      exact this.symm
    have hab : afterBreak ps = rest := by simp [afterBreak, hdw]
    rw [hab]
    conv_lhs => rw [hps]
    rw [hasHotRun_break n (ps.takeWhile isHotPeriod) rest brk hn hbrk,
      hasHotRun_all n (ps.takeWhile isHotPeriod) htw]

theorem heatLoop_eq (ps : List ForecastPeriod) (s : List HotDay) :
    heatLoop ps s =
      if HEAT_WAVE_CONSECUTIVE_DAYS ≤ s.length + (ps.takeWhile isHotPeriod).length then
        s ++ (ps.takeWhile isHotPeriod).map mkHotDay
      else heatLoop (afterBreak ps) [] := by
  induction ps generalizing s with
  | nil =>
    by_cases h : HEAT_WAVE_CONSECUTIVE_DAYS ≤ s.length
    · simp [heatLoop, afterBreak, h]
    · simp [heatLoop, afterBreak, h]
  | cons p t ih =>
    cases hp : isHotPeriod p
    · simp only [heatLoop, hp]
      simp [afterBreak, List.takeWhile_cons, List.dropWhile_cons, hp]
    · simp only [heatLoop, hp, if_true]
      rw [ih (s ++ [mkHotDay p])]
      refine if_congr ?_ ?_ ?_
      · simp only [List.length_append, List.takeWhile_cons, hp, if_true,
          List.length_cons, List.length_nil]
        omega
      · simp [List.takeWhile_cons, hp]
      · simp [afterBreak, List.dropWhile_cons, hp]

theorem heatLoop_nil_start (ps : List ForecastPeriod) :
    heatLoop ps [] =
      if HEAT_WAVE_CONSECUTIVE_DAYS ≤ (ps.takeWhile isHotPeriod).length then
        (ps.takeWhile isHotPeriod).map mkHotDay
      else heatLoop (afterBreak ps) [] := by
  simpa using heatLoop_eq ps []

theorem afterBreak_length_lt (ps : List ForecastPeriod) (h : ps ≠ []) :
    (afterBreak ps).length < ps.length := by
  have h1 : (ps.dropWhile isHotPeriod).length ≤ ps.length :=
    (List.dropWhile_sublist isHotPeriod).length_le
  have h2 : 0 < ps.length := List.length_pos.mpr h
  simp only [afterBreak, List.length_drop]
  omega

theorem heatLoop_ne_nil_fuel (fuel : Nat) :
    ∀ ps : List ForecastPeriod, ps.length ≤ fuel →
      (heatLoop ps [] ≠ [] ↔ HasHotRun HEAT_WAVE_CONSECUTIVE_DAYS ps) := by
  induction fuel with
  | zero =>
    intro ps hps
    have hnil : ps = [] := List.length_eq_zero.mp (Nat.le_zero.mp hps)
    subst hnil
    have hL : heatLoop ([] : List ForecastPeriod) [] = [] := by simp [heatLoop]
    rw [hL]
    simp only [ne_eq, not_true_eq_false, false_iff]
    exact hasHotRun_nil _ (by decide)
  | succ fuel ih =>
    intro ps hps
    rw [heatLoop_nil_start,
      hasHotRun_iff_tw HEAT_WAVE_CONSECUTIVE_DAYS ps (by decide)]
    by_cases hc : HEAT_WAVE_CONSECUTIVE_DAYS ≤ (ps.takeWhile isHotPeriod).length
    · rw [if_pos hc]
      have hne : (ps.takeWhile isHotPeriod).map mkHotDay ≠ [] := by
        intro hmap
        have := congrArg List.length hmap
        simp only [List.length_map, List.length_nil] at this
        rw [this] at hc
        exact absurd hc (by decide)
      exact iff_of_true hne (Or.inl hc)
    · rw [if_neg hc]
      have hlen : (afterBreak ps).length ≤ fuel := by
        by_cases h : ps = []
        · subst h
          simp [afterBreak]
        · have := afterBreak_length_lt ps h
          omega
      rw [ih (afterBreak ps) hlen]
      tauto

theorem heatLoop_ne_nil_iff (ps : List ForecastPeriod) :
    heatLoop ps [] ≠ [] ↔ HasHotRun HEAT_WAVE_CONSECUTIVE_DAYS ps :=
  heatLoop_ne_nil_fuel ps.length ps (le_refl _)

theorem heatLoop_run_fuel (fuel : Nat) :
    ∀ ps : List ForecastPeriod, ps.length ≤ fuel → heatLoop ps [] ≠ [] →
      ∃ l₁ run l₂, ps = l₁ ++ run ++ l₂ ∧ (∀ p ∈ run, isHotPeriod p = true) ∧
        HEAT_WAVE_CONSECUTIVE_DAYS ≤ run.length ∧
        heatLoop ps [] = run.map mkHotDay ∧
        ¬ HasHotRun HEAT_WAVE_CONSECUTIVE_DAYS l₁ := by
  induction fuel with
  | zero =>
    intro ps hps hne
    have : ps = [] := List.length_eq_zero.mp (Nat.le_zero.mp hps)
    rw [this] at hne
    simp [heatLoop] at hne
  | succ fuel ih =>
    intro ps hps hne
    by_cases hc : HEAT_WAVE_CONSECUTIVE_DAYS ≤ (ps.takeWhile isHotPeriod).length
    · refine ⟨[], ps.takeWhile isHotPeriod, ps.dropWhile isHotPeriod,
        by simp [List.takeWhile_append_dropWhile],
        fun p hp => List.mem_takeWhile_imp hp, hc,
        by rw [heatLoop_nil_start, if_pos hc], hasHotRun_nil _ (by decide)⟩
    · have hstep : heatLoop ps [] = heatLoop (afterBreak ps) [] := by
        rw [heatLoop_nil_start, if_neg hc]
      by_cases hnil : ps = []
      · rw [hnil] at hne
        simp [heatLoop] at hne
      · have hlen : (afterBreak ps).length ≤ fuel := by
          have := afterBreak_length_lt ps hnil
          omega
        have hne2 : heatLoop (afterBreak ps) [] ≠ [] := hstep ▸ hne
        obtain ⟨l₁, run, l₂, heqa, hhot, hrl, hres, hnH⟩ := ih (afterBreak ps) hlen hne2
        rcases hdw : ps.dropWhile isHotPeriod with _ | ⟨brk, rest⟩
        · have : afterBreak ps = [] := by simp [afterBreak, hdw]
          rw [this] at hne2
          simp [heatLoop] at hne2
        · have hbrk : isHotPeriod brk = false :=
            dropWhile_cons_head isHotPeriod ps brk rest hdw
          have hab : afterBreak ps = rest := by simp [afterBreak, hdw]
          have hps2 : ps = ps.takeWhile isHotPeriod ++ brk :: rest := by
            have := List.takeWhile_append_dropWhile isHotPeriod ps
            rw [hdw] at this
            exact this.symm
          refine ⟨ps.takeWhile isHotPeriod ++ brk :: l₁, run, l₂, ?_, hhot, hrl,
            hstep.trans hres, ?_⟩
          · conv_lhs => rw [hps2]
            rw [hab] at heqa
            rw [heqa]
            simp
          · rw [hasHotRun_break HEAT_WAVE_CONSECUTIVE_DAYS
              (ps.takeWhile isHotPeriod) l₁ brk (by decide) hbrk]
            rintro (h | h)
            · exact hc (hasHotRun_length h)
            · exact hnH h

theorem heatLoop_run_spec (ps : List ForecastPeriod) (hne : heatLoop ps [] ≠ []) :
    ∃ l₁ run l₂, ps = l₁ ++ run ++ l₂ ∧ (∀ p ∈ run, isHotPeriod p = true) ∧
      HEAT_WAVE_CONSECUTIVE_DAYS ≤ run.length ∧
      heatLoop ps [] = run.map mkHotDay ∧
      ¬ HasHotRun HEAT_WAVE_CONSECUTIVE_DAYS l₁ :=
  heatLoop_run_fuel ps.length ps (le_refl _) hne

theorem heatLoop_allHot_append (l : List ForecastPeriod)
    (h : ∀ p ∈ l, isHotPeriod p = true) (rest : List ForecastPeriod) (s : List HotDay) :
    heatLoop (l ++ rest) s = heatLoop rest (s ++ l.map mkHotDay) := by
  induction l generalizing s with
  | nil => simp
  | cons a t ih =>
    have ha : isHotPeriod a = true := h a (by simp)
    simp only [List.cons_append, heatLoop, ha, if_true, List.append_eq]
    rw [ih (fun p hp => h p (by simp [hp])) (s ++ [mkHotDay a])]
    simp

/-- C6: `check_heat_wave`, off cooldown, fires iff the forecast contains a
streak of at least `HEAT_WAVE_CONSECUTIVE_DAYS = 3` consecutive days with
`maxTempF ≥ 95` (inclusive); when it fires, the reported day list is the
first qualifying streak (no qualifying streak occurs before it) and the
count is its length.  Highs `[90,96,98,97,88]` fire with the streak
`[96,98,97]` of length 3; highs `[96,97,85,96,97]` do not fire; a trailing
streak still in progress at the end of the data (highs `[80,96,98,97]`)
also fires. -/
theorem heat_wave_claim :
    (∀ periods : List ForecastPeriod,
      ((check_heat_wave false periods).1 = true ↔
        HasHotRun HEAT_WAVE_CONSECUTIVE_DAYS periods))
    ∧ (∀ periods : List ForecastPeriod, (check_heat_wave false periods).1 = true →
        ∃ l₁ run l₂, periods = l₁ ++ run ++ l₂ ∧ (∀ p ∈ run, isHotPeriod p = true) ∧
          HEAT_WAVE_CONSECUTIVE_DAYS ≤ run.length ∧
          ¬ HasHotRun HEAT_WAVE_CONSECUTIVE_DAYS l₁ ∧
          check_heat_wave false periods = (true, run.map mkHotDay, run.length))
    ∧ check_heat_wave false heatExA =
        (true, [⟨"2026-07-02", 96⟩, ⟨"2026-07-03", 98⟩, ⟨"2026-07-04", 97⟩], 3)
    ∧ (check_heat_wave false heatExB).1 = false
    ∧ check_heat_wave false heatExC =
        (true, [⟨"2026-07-02", 96⟩, ⟨"2026-07-03", 98⟩, ⟨"2026-07-04", 97⟩], 3) := by
  refine ⟨?_, ?_, by decide, by decide, by decide⟩
  · intro periods
    rw [← heatLoop_ne_nil_iff periods]
    simp only [check_heat_wave, if_neg Bool.false_ne_true]
    rcases h : heatLoop periods [] with _ | ⟨d, t⟩
    · simp [h]
    · simp [h]
  · intro periods hfire
    have hne : heatLoop periods [] ≠ [] := by
      simp only [check_heat_wave, if_neg Bool.false_ne_true] at hfire
      rcases h : heatLoop periods [] with _ | ⟨d, t⟩
      · rw [h] at hfire
        simp at hfire
      · simp [h]
    obtain ⟨l₁, run, l₂, heq, hhot, hlen, hres, hnH⟩ := heatLoop_run_spec periods hne
    refine ⟨l₁, run, l₂, heq, hhot, hlen, hnH, ?_⟩
    simp only [check_heat_wave, if_neg Bool.false_ne_true, hres]
    have hmapne : run.map mkHotDay ≠ [] := by
      intro hmap
      have := congrArg List.length hmap
      simp only [List.length_map, List.length_nil] at this
      rw [this] at hlen
      exact absurd hlen (by decide)
    simp [List.isEmpty_iff, hmapne]

/-- C6 witness: the first-streak part of the claim applied to the
five-day forecast `[90,96,98,97,88]`, which fires. -/
theorem heat_wave_claim_witness :
    (check_heat_wave false heatExA).1 = true ∧
    ∃ l₁ run l₂, heatExA = l₁ ++ run ++ l₂ ∧ (∀ p ∈ run, isHotPeriod p = true) ∧
      HEAT_WAVE_CONSECUTIVE_DAYS ≤ run.length ∧
      ¬ HasHotRun HEAT_WAVE_CONSECUTIVE_DAYS l₁ ∧
      check_heat_wave false heatExA = (true, run.map mkHotDay, run.length) :=
  ⟨by decide, heat_wave_claim.2.1 heatExA (by decide)⟩

/-- C10: a forecast period with an absent `maxTempF` breaks a heat-wave
streak: if every period of `l₁` and `l₂` is hot but the period between
them has no high temperature, the check fires iff `l₁` or `l₂` alone
reaches `HEAT_WAVE_CONSECUTIVE_DAYS = 3`, and the reported streak is `l₁`
when it qualifies, otherwise `l₂` when it qualifies — never the combined
run. -/
theorem heat_missing_high_claim :
    ∀ (l₁ l₂ : List ForecastPeriod) (brk : ForecastPeriod),
      brk.maxTempF = none →
      (∀ p ∈ l₁, isHotPeriod p = true) → (∀ p ∈ l₂, isHotPeriod p = true) →
      ((check_heat_wave false (l₁ ++ brk :: l₂)).1 = true ↔
        (HEAT_WAVE_CONSECUTIVE_DAYS ≤ l₁.length ∨ HEAT_WAVE_CONSECUTIVE_DAYS ≤ l₂.length))
      ∧ heatLoop (l₁ ++ brk :: l₂) [] =
          (if HEAT_WAVE_CONSECUTIVE_DAYS ≤ l₁.length then l₁.map mkHotDay
           else if HEAT_WAVE_CONSECUTIVE_DAYS ≤ l₂.length then l₂.map mkHotDay
           else []) := by
  intro l₁ l₂ brk hbrkNone h1 h2
  have hbrk : isHotPeriod brk = false := by
    simp [isHotPeriod, hbrkNone]
  have hloop : heatLoop (l₁ ++ brk :: l₂) [] =
      (if HEAT_WAVE_CONSECUTIVE_DAYS ≤ l₁.length then l₁.map mkHotDay
       else if HEAT_WAVE_CONSECUTIVE_DAYS ≤ l₂.length then l₂.map mkHotDay
       else []) := by
    rw [heatLoop_allHot_append l₁ h1 (brk :: l₂) []]
    simp only [heatLoop, hbrk, Bool.false_eq_true, if_false, List.nil_append,
      List.length_map]
    by_cases hc1 : HEAT_WAVE_CONSECUTIVE_DAYS ≤ l₁.length
    · rw [if_pos hc1, if_pos hc1]
    · rw [if_neg hc1, if_neg hc1]
      have h3 := heatLoop_allHot_append l₂ h2 [] []
      rw [List.append_nil] at h3
      rw [h3]
      simp only [List.nil_append, heatLoop, List.length_map]
  refine ⟨?_, hloop⟩
  simp only [check_heat_wave, if_neg Bool.false_ne_true, hloop]
  by_cases hc1 : HEAT_WAVE_CONSECUTIVE_DAYS ≤ l₁.length
  · have hne : l₁.map mkHotDay ≠ [] := by
      intro hmap
      have := congrArg List.length hmap
      simp only [List.length_map, List.length_nil] at this
      rw [this] at hc1
      exact absurd hc1 (by decide)
    simp [hc1, List.isEmpty_iff, hne]
  · rw [if_neg hc1]
    by_cases hc2 : HEAT_WAVE_CONSECUTIVE_DAYS ≤ l₂.length
    · have hne : l₂.map mkHotDay ≠ [] := by
        intro hmap
        have := congrArg List.length hmap
        simp only [List.length_map, List.length_nil] at this
        rw [this] at hc2
        exact absurd hc2 (by decide)
      simp [hc2, List.isEmpty_iff, hne, hc1]
    · simp [hc2, hc1]

/-- C10 witness: two hot days, a missing-high day, then three hot days —
only the second streak qualifies, so the check fires via it even though
the combined five hot days are interrupted. -/
theorem heat_missing_high_claim_witness :
    (noHighDay.maxTempF = none
      ∧ (∀ p ∈ [hotDay "2026-07-08", hotDay "2026-07-09"], isHotPeriod p = true)
      ∧ ∀ p ∈ [hotDay "2026-07-11", hotDay "2026-07-12", hotDay "2026-07-13"],
          isHotPeriod p = true)
    ∧ ((check_heat_wave false
        ([hotDay "2026-07-08", hotDay "2026-07-09"] ++ noHighDay ::
          [hotDay "2026-07-11", hotDay "2026-07-12", hotDay "2026-07-13"])).1 = true ↔
      (HEAT_WAVE_CONSECUTIVE_DAYS ≤
          ([hotDay "2026-07-08", hotDay "2026-07-09"] : List ForecastPeriod).length
        ∨ HEAT_WAVE_CONSECUTIVE_DAYS ≤
          ([hotDay "2026-07-11", hotDay "2026-07-12",
            hotDay "2026-07-13"] : List ForecastPeriod).length)) :=
  ⟨⟨rfl, by decide, by decide⟩,
    (heat_missing_high_claim [hotDay "2026-07-08", hotDay "2026-07-09"]
      [hotDay "2026-07-11", hotDay "2026-07-12", hotDay "2026-07-13"]
      noHighDay rfl (by decide) (by decide)).1⟩

end WeatherNotifier
